import Mathlib

/-
Verification of the ShockerServer repository (src/server.js, the full
HTTPS/WebSocket variant, lines 701-1692 of the concatenated file).

The embedding models the JavaScript values that flow through the handlers
(absent / number / string) together with JS truthiness and parseInt, and
the pure decision logic of:
  - validateIntensity / validateTime        (server.js 767-775)
  - validateApiKey                          (server.js 818-820)
  - collectSubscriberShockers               (server.js 855-865)
  - sendOpenShockControl (request decision) (server.js 868-958)
  - broadcastMessage                        (server.js 961-1022)
  - executeBroadcast                        (server.js 1027-1085)
  - the subscribe / unsubscribe / close WebSocket handlers (1117-1201)
  - POST /shocker/activate, POST /shocker/stop (1234-1328)
  - POST /broadcast                         (1331-1355)
  - startYouTubeSubscriberMonitoring and handleSubscriberUpdate (1466-1538)

Network effects are represented by the data of the outbound requests the
code decides to issue; timers are represented by the scheduled duration
and by the timer-callback state transition.
-/

namespace ShockerServer

/-- A JavaScript value as it arrives in a parsed JSON body or message:
absent/undefined/null, an (integer) number, or a string. -/
inductive JVal where
  | null : JVal
  | num : Int → JVal
  | str : String → JVal
deriving DecidableEq, Repr

/-- JS truthiness of a value: undefined/null, 0 and the empty string are
falsy, everything else modelled here is truthy. -/
def truthy : JVal → Bool
  | .null => false
  | .num n => n != 0
  | .str s => s != ""

/-- JS String(v) coercion for the values modelled here. -/
def jsToString : JVal → String
  | .null => "null"
  | .num n => toString n
  | .str s => s

/-- Decimal digit value of a character, none for a non-digit. -/
def digitVal (c : Char) : Option Nat :=
  if '0' ≤ c ∧ c ≤ '9' then some (c.toNat - '0'.toNat) else none

/-- Longest prefix of decimal digits, as digit values. -/
def takeDigits : List Char → List Nat
  | [] => []
  | c :: cs =>
    match digitVal c with
    | some d => d :: takeDigits cs
    | none => []

/-- JS parseInt on a string (radix 10): skip leading whitespace, read an
optional sign and then the longest digit prefix; NaN (none) if there is
no digit. -/
def jsParseIntStr (s : String) : Option Int :=
  let cs := s.trim.toList
  let signRest : Int × List Char :=
    match cs with
    | '-' :: t => (-1, t)
    | '+' :: t => (1, t)
    | t => (1, t)
  let ds := takeDigits signRest.2
  if ds.isEmpty then none
  else some (signRest.1 * Int.ofNat (ds.foldl (fun a d => a * 10 + d) 0))

/-- JS parseInt on a modelled value: parseInt(undefined) is NaN, an
integer number is returned unchanged (parseInt(String(n)) = n), a string
goes through string parsing. -/
def jsParseInt : JVal → Option Int
  | .null => none
  | .num n => some n
  | .str s => jsParseIntStr s

/-- server.js 767-770: validateIntensity, true iff parseInt gives a
number in [0, 100]. -/
def validateIntensity (v : JVal) : Bool :=
  match jsParseInt v with
  | some n => decide (0 ≤ n) && decide (n ≤ 100)
  | none => false

/-- server.js 772-775: validateTime, true iff parseInt gives a number in
[300, 30000]. -/
def validateTime (v : JVal) : Bool :=
  match jsParseInt v with
  | some n => decide (300 ≤ n) && decide (n ≤ 30000)
  | none => false

/-- server.js 818-820: validateApiKey, set membership in the loaded key
set; a non-string value is never a member of a set of strings. -/
def validateApiKey (keys : List String) (v : JVal) : Bool :=
  match v with
  | .str s => keys.contains s
  | _ => false

/-- The split(',').map(trim).filter(nonempty) idiom used for shocker-ID
lists (server.js 882, 1124, 1132). -/
def parseIdList (s : String) : List String :=
  ((s.splitOn ",").map String.trim).filter (fun sid => sid.length > 0)

/-- One entry of the broadcastSubscribers map (server.js 748-749): the
connection liveness flag (ws.readyState === OPEN) and the stored
subscription data {apiKey, shockers}. -/
structure Subscriber where
  isOpen : Bool
  apiKey : JVal
  shockers : List String
deriving DecidableEq, Repr

/-- Set.add on a list representation of a JS Set (insertion order kept,
duplicates ignored). -/
def addShocker (acc : List String) (sid : String) : List String :=
  if acc.contains sid then acc else acc ++ [sid]

/-- server.js 855-865: collectSubscriberShockers, the union (as a JS Set
in insertion order) of the shocker IDs of all subscribers whose
connection is OPEN. -/
def collectSubscriberShockers (subs : List Subscriber) : List String :=
  subs.foldl
    (fun acc sub => if sub.isOpen then sub.shockers.foldl addShocker acc else acc) []

/-- The OpenShock environment configuration read in sendOpenShockControl
(server.js 870-871); the empty string models an unset variable. -/
structure Config where
  openShockToken : String
  openShockIdsEnv : String
deriving DecidableEq, Repr

/-- The data of one outbound OpenShock control request (server.js
900-916): the token header and the JSON payload fields. -/
structure ForwardCall where
  credential : String
  shockerIds : List String
  intensity : Int
  duration : Int
  kind : String
deriving DecidableEq, Repr

/-- Outcome of sendOpenShockControl before any network I/O: either it
resolves early with enabled:false, or it issues exactly one HTTPS
request with the given payload. -/
inductive OpenShockOutcome where
  | notConfigured
  | noShockers
  | requested (call : ForwardCall)
deriving DecidableEq, Repr

/-- server.js 898: openshockType = type === 'vibrate' ? 'vibrate' : 'shock'. -/
def normalizeKind (v : JVal) : String :=
  if v = .str "vibrate" then "vibrate" else "shock"

/-- server.js 868-958: the request-decision part of sendOpenShockControl.
If the token or the env shocker-ID variable is unset it resolves
enabled:false without any request; otherwise it uses the given shocker
list when non-empty, else the env list; an empty final list resolves
enabled:false; otherwise exactly one request is issued, carrying the env
token and the list.  parseInt of the parameters is guaranteed numeric on
every reachable call (broadcastMessage validates first). -/
def sendOpenShockControl (cfg : Config) (shockers : List String)
    (intensity duration kind : JVal) : OpenShockOutcome :=
  if cfg.openShockToken = "" ∨ cfg.openShockIdsEnv = "" then .notConfigured
  else
    let envList := parseIdList cfg.openShockIdsEnv
    let shockerIds := if shockers.length > 0 then shockers else envList
    if shockerIds.length = 0 then .noShockers
    else .requested ⟨cfg.openShockToken, shockerIds,
      (jsParseInt intensity).getD 0, (jsParseInt duration).getD 0, normalizeKind kind⟩

/-- The outbound requests an OpenShockOutcome stands for (zero or one). -/
def outboundCalls : OpenShockOutcome → List ForwardCall
  | .requested c => [c]
  | _ => []

/-- server.js 963, 1038: validTypes.includes(type), where validTypes is
the array of the two strings shock and vibrate. -/
def isValidKind (v : JVal) : Bool :=
  v == .str "shock" || v == .str "vibrate"

/-- Observable outcome of broadcastMessage: its boolean return, whether
the fan-out to subscribers ran (and the count of sends), whether
sendOpenShockControl was invoked, and the outbound requests issued. -/
structure BMOutcome where
  ok : Bool
  notified : Option Nat
  forwardAttempted : Bool
  calls : List ForwardCall
deriving DecidableEq, Repr

/-- server.js 961-1022: broadcastMessage.  Validates type, intensity and
duration (returning false with no side effect otherwise); then
broadcastToSubscribers sends to every OPEN subscriber and prunes the
rest from the map; then collectSubscriberShockers is computed over the
pruned map and sendOpenShockControl is invoked only when that union is
non-empty.  Returns the outcome together with the pruned subscriber
table. -/
def broadcastMessage (cfg : Config) (subs : List Subscriber)
    (intensity duration kind : JVal) : BMOutcome × List Subscriber :=
  if !(isValidKind kind) then (⟨false, none, false, []⟩, subs)
  else if !(validateIntensity intensity) then (⟨false, none, false, []⟩, subs)
  else if !(validateTime duration) then (⟨false, none, false, []⟩, subs)
  else
    let subs2 := subs.filter (fun sub => sub.isOpen)
    let allShockers := collectSubscriberShockers subs2
    if allShockers.length > 0 then
      (⟨true, some subs2.length, true,
        outboundCalls (sendOpenShockControl cfg allShockers intensity duration kind)⟩,
        subs2)
    else (⟨true, some subs2.length, false, []⟩, subs2)

/-- The error field of a failed executeBroadcast result (server.js
1030-1084). -/
inductive ExecError where
  | missingParams
  | invalidType
  | invalidIntensity
  | invalidDuration
  | broadcastFailed
deriving DecidableEq, Repr

/-- Observable result of executeBroadcast: success flag and error, the
reported subscriber count on success, and the broadcastMessage
observables. -/
structure ExecOutcome where
  success : Bool
  error : Option ExecError
  subscribers : Option Nat
  notified : Option Nat
  forwardAttempted : Bool
  calls : List ForwardCall
deriving DecidableEq, Repr

/-- server.js 1027-1085: executeBroadcast.  Rejects falsy parameters,
then invalid type, intensity, duration (in that order); otherwise runs
broadcastMessage and on its success reports subscribers =
broadcastSubscribers.size, i.e. the size of the table after the fan-out
pruned closed connections. -/
def executeBroadcast (cfg : Config) (subs : List Subscriber)
    (intensity duration kind : JVal) : ExecOutcome × List Subscriber :=
  if !(truthy intensity) || !(truthy duration) || !(truthy kind) then
    (⟨false, some .missingParams, none, none, false, []⟩, subs)
  else if !(isValidKind kind) then
    (⟨false, some .invalidType, none, none, false, []⟩, subs)
  else if !(validateIntensity intensity) then
    (⟨false, some .invalidIntensity, none, none, false, []⟩, subs)
  else if !(validateTime duration) then
    (⟨false, some .invalidDuration, none, none, false, []⟩, subs)
  else
    let r := broadcastMessage cfg subs intensity duration kind
    if r.1.ok then
      (⟨true, none, some r.2.length, r.1.notified, r.1.forwardAttempted, r.1.calls⟩, r.2)
    else
      (⟨false, some .broadcastFailed, none, r.1.notified, r.1.forwardAttempted, r.1.calls⟩,
        r.2)

/-- Observable response of the POST /broadcast route: HTTP status,
success flag, reported subscriber count, and whether/what the dispatch
notified and forwarded. -/
structure EndpointOutcome where
  status : Nat
  success : Bool
  subscribers : Option Nat
  notified : Option Nat
  forwardAttempted : Bool
  calls : List ForwardCall
deriving DecidableEq, Repr

/-- server.js 1349-1352: status code for a failed executeBroadcast. -/
def errorStatus : ExecError → Nat
  | .missingParams => 400
  | .invalidType => 400
  | .invalidIntensity => 400
  | .invalidDuration => 400
  | .broadcastFailed => 500

/-- server.js 1331-1355: the POST /broadcast handler.  A falsy apiKey or
one that is not in the loaded key set returns 401 before executeBroadcast
is reached; otherwise the executeBroadcast result is returned with 200 on
success and errorStatus otherwise. -/
def broadcastEndpoint (keys : List String) (cfg : Config) (subs : List Subscriber)
    (apiKey intensity duration kind : JVal) : EndpointOutcome × List Subscriber :=
  if !(truthy apiKey) || !(validateApiKey keys apiKey) then
    (⟨401, false, none, none, false, []⟩, subs)
  else
    let r := executeBroadcast cfg subs intensity duration kind
    let st := if r.1.success then 200 else
      match r.1.error with
      | some e => errorStatus e
      | none => 500
    (⟨st, r.1.success, r.1.subscribers, r.1.notified, r.1.forwardAttempted, r.1.calls⟩,
      r.2)

/-- server.js 737-742: the in-memory shocker state; lastActivated is a
timestamp (none before the first activation). -/
structure ShockerState where
  isOn : Bool
  currentIntensity : Int
  currentTime : Int
  lastActivated : Option Nat
deriving DecidableEq, Repr

/-- The initial shocker state (server.js 737-742). -/
def initialShockerState : ShockerState := ⟨false, 0, 0, none⟩

/-- Response of the POST /shocker/activate handler. -/
inductive ActivateResponse where
  | missingParams
  | invalidIntensity
  | invalidTime
  | activated (snapshot : ShockerState)
deriving DecidableEq, Repr

/-- Observable outcome of POST /shocker/activate: the response, the
resulting state, and the duration of the scheduled auto-off timer (none
when no timer was scheduled). -/
structure ActivateOutcome where
  response : ActivateResponse
  state : ShockerState
  timerScheduled : Option Int
deriving DecidableEq, Repr

/-- server.js 1234-1300: the POST /shocker/activate handler.  Rejects
falsy intensity or time with Missing required parameters, then invalid
intensity, then invalid time (fixed order); otherwise sets
isOn/intensity/time/lastActivated, schedules one setTimeout for
parseInt(time) milliseconds, and answers with the new state. -/
def activateHandler (st : ShockerState) (now : Nat)
    (intensity time : JVal) : ActivateOutcome :=
  if !(truthy intensity) || !(truthy time) then ⟨.missingParams, st, none⟩
  else if !(validateIntensity intensity) then ⟨.invalidIntensity, st, none⟩
  else if !(validateTime time) then ⟨.invalidTime, st, none⟩
  else
    let st2 : ShockerState :=
      ⟨true, (jsParseInt intensity).getD 0, (jsParseInt time).getD 0, some now⟩
    ⟨.activated st2, st2, some ((jsParseInt time).getD 0)⟩

/-- server.js 1303-1306: the POST /shocker/stop handler sets isOn=false,
currentIntensity=0, currentTime=0 (lastActivated is untouched). -/
def stopHandler (st : ShockerState) : ShockerState :=
  { st with isOn := false, currentIntensity := 0, currentTime := 0 }

/-- server.js 1278-1288: the auto-off setTimeout callback sets only
isOn=false, leaving currentIntensity and currentTime at their last
values. -/
def autoOffFire (st : ShockerState) : ShockerState :=
  { st with isOn := false }

/-- The shockers field of an inbound subscribe_broadcast message
(server.js 1118-1126): absent, a string, or an array. -/
inductive ShockersField where
  | absent
  | strVal (s : String)
  | arrVal (l : List JVal)
deriving DecidableEq, Repr

/-- The value stored per connection in the broadcastSubscribers map
(server.js 1137-1140). -/
structure SubData where
  apiKey : JVal
  shockers : List String
deriving DecidableEq, Repr

/-- server.js 1118-1134: resolution of the shocker list of a subscribe
message.  An array is stringified, trimmed and filtered; a truthy string
is split on commas, trimmed, filtered; anything else gives the empty
list; an empty result falls back to the OPENSHOCK_SHOCKER_IDS
environment list when that variable is truthy. -/
def resolveShockerList (envIds : String) (f : ShockersField) : List String :=
  let fromMsg : List String :=
    match f with
    | .absent => []
    | .strVal s => if s = "" then [] else parseIdList s
    | .arrVal l => (l.map (fun v => (jsToString v).trim)).filter (fun sid => sid.length > 0)
  if fromMsg.length = 0 then
    if envIds = "" then [] else parseIdList envIds
  else fromMsg

/-- The server state the WebSocket handlers mutate: the set of open
connections (by identity), the broadcastSubscribers map as an
association list in insertion order, and whether the YouTube monitoring
interval is running. -/
structure ServerState where
  openConns : List Nat
  table : List (Nat × SubData)
  monitorRunning : Bool
deriving DecidableEq, Repr

/-- JS Map.set on the association list: overwrite in place if the key is
present, append otherwise. -/
def setEntry : List (Nat × SubData) → Nat → SubData → List (Nat × SubData)
  | [], c, d => [(c, d)]
  | p :: t, c, d => if p.1 = c then (c, d) :: t else p :: setEntry t c d

/-- JS Map.delete on the association list. -/
def removeEntry (table : List (Nat × SubData)) (c : Nat) : List (Nat × SubData) :=
  table.filter (fun p => p.1 ≠ c)

/-- The acknowledgment envelope a subscription-related handler sends
back on the same connection. -/
inductive WsResponse where
  | subscribed (shockers : List String)
  | unsubscribed (wasSubscribed : Bool)
  | errorMsg (msg : String)
deriving DecidableEq, Repr

/-- server.js 1117-1148: the subscribe_broadcast handler.  It resolves
the shocker list, unconditionally stores {apiKey, shockers} for the
connection (no validation of either field), and always acknowledges
with a subscribed message carrying the resolved list. -/
def handleSubscribe (envIds : String) (st : ServerState) (c : Nat)
    (f : ShockersField) (apiKey : JVal) : ServerState × WsResponse :=
  let shockerList := resolveShockerList envIds f
  ({ st with table := setEntry st.table c ⟨apiKey, shockerList⟩ },
    .subscribed shockerList)

/-- server.js 1150-1166: the unsubscribe_broadcast handler removes the
entry when present and acknowledges either way. -/
def handleUnsubscribe (st : ServerState) (c : Nat) : ServerState × WsResponse :=
  if st.table.any (fun p => p.1 == c) then
    ({ st with table := removeEntry st.table c }, .unsubscribed true)
  else (st, .unsubscribed false)

/-- server.js 1181-1190: the close handler removes the connection from
the live set and from the broadcastSubscribers map. -/
def handleDisconnect (st : ServerState) (c : Nat) : ServerState :=
  { st with openConns := st.openConns.filter (fun x => x ≠ c),
            table := removeEntry st.table c }

/-- server.js 1093-1096: a new connection is added to the live set. -/
def handleConnect (st : ServerState) (c : Nat) : ServerState :=
  { st with openConns :=
      if st.openConns.contains c then st.openConns else st.openConns ++ [c] }

/-- A connection-lifecycle or subscription event. -/
inductive WsEvent where
  | connect (c : Nat)
  | subscribeMsg (c : Nat) (f : ShockersField) (apiKey : JVal)
  | unsubscribeMsg (c : Nat)
  | disconnect (c : Nat)
deriving Repr

/-- Dispatch of one event to its handler (server.js 1093-1201). -/
def handleEvent (envIds : String) (st : ServerState) : WsEvent → ServerState
  | .connect c => handleConnect st c
  | .subscribeMsg c f k => (handleSubscribe envIds st c f k).1
  | .unsubscribeMsg c => (handleUnsubscribe st c).1
  | .disconnect c => handleDisconnect st c

/-- A sequence of events applied in order. -/
def runEvents (envIds : String) (st : ServerState) (es : List WsEvent) : ServerState :=
  es.foldl (handleEvent envIds) st

/-- The YouTube environment configuration read by
startYouTubeSubscriberMonitoring (server.js 1467-1468); the empty string
models an unset variable. -/
structure MonitorConfig where
  youtubeApiKey : String
  youtubeChannelId : String
deriving DecidableEq, Repr

/-- server.js 1466-1538: startYouTubeSubscriberMonitoring returns
without starting anything when the API key or channel ID is unset;
otherwise it starts a setInterval that is never cleared.  The returned
Bool is whether the interval is running afterwards. -/
def startYouTubeSubscriberMonitoring (mc : MonitorConfig) : Bool :=
  if mc.youtubeApiKey = "" ∨ mc.youtubeChannelId = "" then false else true

/-- server.js 1582-1633: at startup the subscriber structures are empty
and monitoring is started exactly when configured. -/
def serverStartup (mc : MonitorConfig) : ServerState :=
  ⟨[], [], startYouTubeSubscriberMonitoring mc⟩

/-- Modelled from the spec (4.5): hasActiveSubscribers, true iff some
entry of the subscription table has an OPEN connection.  No such
predicate exists in server.js; this definition follows the wording of
the spec so that the supervisor claim can be stated against the code. -/
def specHasActiveSubscribers (st : ServerState) : Bool :=
  st.table.any (fun p => st.openConns.contains p.1)

/-- Modelled from the spec (3): the DeviceState invariant, isOn = false
implies intensity = 0 and durationMs = 0. -/
def specStateInvariant (st : ShockerState) : Prop :=
  st.isOn = false → st.currentIntensity = 0 ∧ st.currentTime = 0

/-- The broadcast-on-change configuration of the YouTube monitor
(server.js 1471-1474). -/
structure YTBroadcastConfig where
  broadcastOnChange : Bool
  broadcastIntensity : Int
  broadcastDuration : Int
  broadcastType : String
deriving DecidableEq, Repr

/-- server.js 1489-1521: handleSubscriberUpdate.  Returns whether
executeBroadcast is triggered for this observation, and the new value of
previousSubscriberCount.  The trigger condition is: a previous
observation exists, it differs from the current count (in either
direction), and the broadcast-on-change option is enabled. -/
def handleSubscriberUpdate (cfg : YTBroadcastConfig)
    (previousSubscriberCount : Option Int) (currentCount : Int) : Bool × Option Int :=
  let triggers :=
    match previousSubscriberCount with
    | none => false
    | some p => if p ≠ currentCount then cfg.broadcastOnChange else false
  (triggers, some currentCount)

/- Concrete scenario inputs used by counterexamples and witnesses. -/

/-- A configuration with the OpenShock token and env shocker IDs set. -/
def cfgSet : Config := ⟨"envTok", "e1"⟩

/-- Two open subscribers holding distinct forwarding credentials k1 and
k2, with device IDs d1 and d2. -/
def twoCredSubs : List Subscriber :=
  [⟨true, .str "k1", ["d1"]⟩, ⟨true, .str "k2", ["d2"]⟩]

/-- A monitor configuration with both YouTube variables set. -/
def ytConfigured : MonitorConfig := ⟨"ytkey", "ytchan"⟩

/-- An event run that ends with an empty subscriber table: connect,
subscribe, unsubscribe on one connection. -/
def subThenUnsub : List WsEvent :=
  [.connect 1, .subscribeMsg 1 (.strVal "d1") (.str "k1"), .unsubscribeMsg 1]

/-- One open subscriber that contributed no device IDs. -/
def openNoShockers : List Subscriber := [⟨true, .null, []⟩]

/- Theorems. -/

/-- A valid broadcast kind (one of the strings shock, vibrate) is a
truthy value. -/
theorem truthy_of_isValidKind (v : JVal) (h : isValidKind v = true) :
    truthy v = true := by
  have h2 : v = .str "shock" ∨ v = .str "vibrate" := by
    simpa [isValidKind] using h
  rcases h2 with h1 | h1
  · subst h1
    rfl
  · subst h1
    rfl

/-- C3: for intensity in [0,100] and time in [300,30000] the spec says
activate must succeed, but the handler evaluated at intensity 0 and time
1000 — both validators passing — answers Missing required parameters and
leaves the state unchanged, because the falsy-zero guard rejects the
number 0 before validation.  This contradicts the validators and the
README (intensity 0-100 valid). -/
theorem C3_intensity_zero_rejected :
    validateIntensity (.num 0) = true ∧ validateTime (.num 1000) = true ∧
    (activateHandler initialShockerState 0 (.num 0) (.num 1000)).response =
      .missingParams ∧
    (activateHandler initialShockerState 0 (.num 0) (.num 1000)).state =
      initialShockerState ∧
    (activateHandler initialShockerState 0 (.num 0) (.num 1000)).timerScheduled =
      none :=
  ⟨rfl, rfl, rfl, rfl, rfl⟩

/-- C5 counterexample: activating at intensity 50 for 1000 ms and letting
the auto-off timer fire yields a state with isOn = false and
currentIntensity = 50, so the invariant isOn = false implies
intensity = 0 and durationMs = 0 fails after the auto-off callback. -/
theorem C5_counterexample :
    (autoOffFire (activateHandler initialShockerState 5 (.num 50) (.num 1000)).state).isOn
      = false ∧
    (autoOffFire
        (activateHandler initialShockerState 5 (.num 50) (.num 1000)).state).currentIntensity
      = 50 ∧
    ¬ specStateInvariant
        (autoOffFire (activateHandler initialShockerState 5 (.num 50) (.num 1000)).state) :=
  ⟨rfl, rfl, fun h => absurd (h rfl).1 (by decide)⟩

/-- C5 amended: the invariant isOn = false implies intensity = 0 and
durationMs = 0 is preserved by stop and by activate (activate either
leaves the state unchanged on a validation failure or turns isOn on),
but the auto-off callback clears only isOn and preserves the last
intensity and duration, so the invariant does not in general survive the
auto-off timer. -/
theorem C5_invariant_scope (st : ShockerState) (now : Nat) (i t : JVal)
    (hst : specStateInvariant st) :
    specStateInvariant (stopHandler st) ∧
    specStateInvariant (activateHandler st now i t).state ∧
    (autoOffFire st).isOn = false ∧
    (autoOffFire st).currentIntensity = st.currentIntensity ∧
    (autoOffFire st).currentTime = st.currentTime := by
  refine ⟨?_, ?_, rfl, rfl, rfl⟩
  · intro _
    exact ⟨rfl, rfl⟩
  · unfold activateHandler
    by_cases h1 : (!(truthy i) || !(truthy t)) = true
    · simp only [h1, if_true]
      exact hst
    · simp only [h1, if_false]
      by_cases h2 : (!(validateIntensity i)) = true
      · simp only [h2, if_true]
        exact hst
      · simp only [h2, if_false]
        by_cases h3 : (!(validateTime t)) = true
        · simp only [h3, if_true]
          exact hst
        · simp only [h3, if_false]
          intro hoff
          exact absurd hoff (by simp)

/-- C5 amended witness: the amended invariant theorem applied at the
initial state (which satisfies the invariant) with intensity 50 and time
1000. -/
theorem C5_invariant_scope_witness :
    specStateInvariant (stopHandler initialShockerState) ∧
    specStateInvariant
      (activateHandler initialShockerState 0 (.num 50) (.num 1000)).state ∧
    (autoOffFire initialShockerState).isOn = false ∧
    (autoOffFire initialShockerState).currentIntensity =
      initialShockerState.currentIntensity ∧
    (autoOffFire initialShockerState).currentTime = initialShockerState.currentTime :=
  C5_invariant_scope initialShockerState 0 (.num 50) (.num 1000)
    (fun _ => ⟨rfl, rfl⟩)

/-- C6 counterexample: with broadcast-on-change enabled, a poll that
observes the metric falling from 10 to 9 — a strict decrease — triggers
a broadcast, contradicting the claim that a decrease never triggers. -/
theorem C6_counterexample :
    (handleSubscriberUpdate ⟨true, 50, 1000, "vibrate"⟩ (some 10) 9).1 = true :=
  rfl

/-- C6 amended: the monitor triggers a broadcast exactly when a previous
observation exists, the current value differs from it in either
direction (the code compares with inequality, not strict increase), and
the broadcast-on-change option is enabled; the stored previous count
always becomes the current one. -/
theorem C6_change_trigger_characterized (cfg : YTBroadcastConfig)
    (prev : Option Int) (cur : Int) :
    ((handleSubscriberUpdate cfg prev cur).1 = true ↔
      (∃ p, prev = some p ∧ p ≠ cur) ∧ cfg.broadcastOnChange = true) ∧
    (handleSubscriberUpdate cfg prev cur).2 = some cur := by
  refine ⟨?_, rfl⟩
  cases prev with
  | none => simp [handleSubscriberUpdate]
  | some p =>
    by_cases h : p = cur
    · simp [handleSubscriberUpdate, h]
    · simp [handleSubscriberUpdate, h]

/-- C8: stop unconditionally yields isOn = false, intensity = 0,
durationMs = 0 whatever the prior state, and a pending auto-off timer
firing after stop leaves isOn false (the late firing only rewrites isOn
to the value it already has). -/
theorem C8_stop_state (st : ShockerState) :
    (stopHandler st).isOn = false ∧
    (stopHandler st).currentIntensity = 0 ∧
    (stopHandler st).currentTime = 0 ∧
    autoOffFire (stopHandler st) = stopHandler st :=
  ⟨rfl, rfl, rfl, rfl⟩

/-- C9: validateIntensity is true exactly when JS parseInt yields an
integer in [0,100], and validateTime exactly when it yields an integer
in [300,30000]; both are total Lean functions of the input value, so
they return false (never raise) on non-numeric or out-of-range input. -/
theorem C9_validators_characterized (v : JVal) :
    (validateIntensity v = true ↔
      ∃ n : Int, jsParseInt v = some n ∧ 0 ≤ n ∧ n ≤ 100) ∧
    (validateTime v = true ↔
      ∃ n : Int, jsParseInt v = some n ∧ 300 ≤ n ∧ n ≤ 30000) := by
  cases h : jsParseInt v with
  | none => simp [validateIntensity, validateTime, h]
  | some n => simp [validateIntensity, validateTime, h]

/-- No WebSocket event handler touches the monitoring interval: the
subscribe, unsubscribe, connect and close paths never reference the
YouTube monitor. -/
theorem handleEvent_monitor (envIds : String) (st : ServerState) (e : WsEvent) :
    (handleEvent envIds st e).monitorRunning = st.monitorRunning := by
  cases e with
  | connect c => rfl
  | subscribeMsg c f k => rfl
  | unsubscribeMsg c =>
    unfold handleEvent handleUnsubscribe
    by_cases h : st.table.any (fun p => p.1 == c) = true
    · simp [h]
    · simp [h]
  | disconnect c => rfl

/-- C2 counterexample: with YouTube monitoring configured, the server
starts with the interval running and an empty subscriber table, and
after a connect / subscribe / unsubscribe run the table is empty again
yet the interval is still running — so the supervisor is RUNNING while
no subscribed connection is open, with no edge check ever performed. -/
theorem C2_counterexample :
    (runEvents "" (serverStartup ytConfigured) subThenUnsub).monitorRunning = true ∧
    specHasActiveSubscribers (runEvents "" (serverStartup ytConfigured) subThenUnsub)
      = false ∧
    specHasActiveSubscribers (serverStartup ytConfigured) = false ∧
    (serverStartup ytConfigured).monitorRunning = true :=
  ⟨rfl, rfl, rfl, rfl⟩

/-- C2 amended: the poll interval is started once at startup, exactly
when the YouTube API key and channel ID are both configured, and its
running state is invariant under every sequence of subscribe,
unsubscribe, connect and disconnect events; it is never gated by the
subscriber set. -/
theorem C2_monitor_independent_of_subscribers (envIds : String)
    (st : ServerState) (es : List WsEvent) (mc : MonitorConfig) :
    (runEvents envIds st es).monitorRunning = st.monitorRunning ∧
    ((serverStartup mc).monitorRunning = true ↔
      mc.youtubeApiKey ≠ "" ∧ mc.youtubeChannelId ≠ "") := by
  constructor
  · induction es generalizing st with
    | nil => rfl
    | cons e es ih =>
      calc (runEvents envIds (handleEvent envIds st e) es).monitorRunning
          = (handleEvent envIds st e).monitorRunning := ih _
        _ = st.monitorRunning := handleEvent_monitor envIds st e
  · unfold serverStartup startYouTubeSubscriberMonitoring
    by_cases h : mc.youtubeApiKey = "" ∨ mc.youtubeChannelId = ""
    · simp only [h, if_true]
      simp [not_and_or, h]
      tauto
    · simp only [h, if_false]
      push_neg at h
      simp [h]

/-- C4 counterexample: a subscribe message with no shockers field and no
credential, with no environment default configured, still creates a
subscription entry (with the empty device list and a null credential)
and is acknowledged with subscribed — the claimed MissingDeviceIds and
MissingCredential failures do not exist in the handler. -/
theorem C4_counterexample :
    (handleSubscribe "" ⟨[1], [], true⟩ 1 .absent .null).1.table =
      [(1, ⟨JVal.null, []⟩)] ∧
    (handleSubscribe "" ⟨[1], [], true⟩ 1 .absent .null).2 = .subscribed [] :=
  ⟨rfl, rfl⟩

/-- After Map.set for a key, some entry with that key is in the table. -/
theorem setEntry_mem (t : List (Nat × SubData)) (c : Nat) (d : SubData) :
    ∃ d2, (c, d2) ∈ setEntry t c d := by
  induction t with
  | nil => exact ⟨d, List.mem_singleton.mpr rfl⟩
  | cons p t ih =>
    unfold setEntry
    by_cases h : p.1 = c
    · exact ⟨d, by simp [h]⟩
    · obtain ⟨d2, hd2⟩ := ih
      exact ⟨d2, by simp [h, hd2]⟩

/-- C4 amended: the subscribe handler never fails.  Whatever the
shockers field and the credential, it stores the resolved (possibly
empty) device list and the unvalidated credential for the connection —
an entry for that connection exists afterwards — and acknowledges with
subscribed carrying the resolved list. -/
theorem C4_subscribe_always_succeeds (envIds : String) (st : ServerState)
    (c : Nat) (f : ShockersField) (apiKey : JVal) :
    (handleSubscribe envIds st c f apiKey).2 =
      .subscribed (resolveShockerList envIds f) ∧
    (handleSubscribe envIds st c f apiKey).1.table =
      setEntry st.table c ⟨apiKey, resolveShockerList envIds f⟩ ∧
    ∃ d2, (c, d2) ∈ (handleSubscribe envIds st c f apiKey).1.table :=
  ⟨rfl, rfl, setEntry_mem st.table c ⟨apiKey, resolveShockerList envIds f⟩⟩

/-- C7: a /broadcast request whose apiKey is falsy (missing or blank) or
not a member of the loaded key set is answered with 401, the subscriber
notification step never runs, no outbound forwarding call is attempted,
and the subscriber table is untouched — the request never reaches the
forwarding step. -/
theorem C7_unauthorized_no_forward (keys : List String) (cfg : Config)
    (subs : List Subscriber) (apiKey intensity duration kind : JVal)
    (h : truthy apiKey = false ∨ validateApiKey keys apiKey = false) :
    (broadcastEndpoint keys cfg subs apiKey intensity duration kind).1 =
      ⟨401, false, none, none, false, []⟩ ∧
    (broadcastEndpoint keys cfg subs apiKey intensity duration kind).2 = subs := by
  unfold broadcastEndpoint
  rcases h with h | h <;> simp [h]

/-- C7 witness: the unauthorized-broadcast theorem applied at a missing
apiKey against the key set containing only K. -/
theorem C7_unauthorized_no_forward_witness :
    (truthy JVal.null = false ∨ validateApiKey ["K"] JVal.null = false) ∧
    ((broadcastEndpoint ["K"] cfgSet twoCredSubs .null (.num 50) (.num 1000)
        (.str "shock")).1 = ⟨401, false, none, none, false, []⟩ ∧
      (broadcastEndpoint ["K"] cfgSet twoCredSubs .null (.num 50) (.num 1000)
        (.str "shock")).2 = twoCredSubs) :=
  ⟨Or.inl rfl,
    C7_unauthorized_no_forward ["K"] cfgSet twoCredSubs .null (.num 50) (.num 1000)
      (.str "shock") (Or.inl rfl)⟩

/-- C1 counterexample: with forwarding configured and two open
subscribers A (credential k1, device d1) and B (credential k2, device
d2), one broadcast issues exactly ONE outbound call — carrying the
environment token and the union of both device lists — not the two
per-credential calls the claim requires. -/
theorem C1_counterexample :
    (broadcastMessage cfgSet twoCredSubs (.num 50) (.num 1000) (.str "shock")).1.calls =
      [⟨"envTok", ["d1", "d2"], 50, 1000, "shock"⟩] ∧
    ¬ (broadcastMessage cfgSet twoCredSubs (.num 50) (.num 1000)
          (.str "shock")).1.calls.length = 2 :=
  ⟨rfl, by decide⟩

/-- C1 amended: subscribers are never grouped by their stored
forwarding credential.  Whenever the parameters are valid, forwarding
is configured and the union of the open subscribers' device IDs is
non-empty, a broadcast issues exactly one outbound call, carrying the
single environment-configured credential and that union; the
per-subscriber credentials are ignored, so N subscribers with any mix
of credentials produce one call, not one per credential. -/
theorem C1_single_global_forward_call (cfg : Config) (subs : List Subscriber)
    (intensity duration kind : JVal)
    (hk : isValidKind kind = true)
    (hi : validateIntensity intensity = true) (hd : validateTime duration = true)
    (htok : cfg.openShockToken ≠ "") (hids : cfg.openShockIdsEnv ≠ "")
    (hne : collectSubscriberShockers (subs.filter (fun sub => sub.isOpen)) ≠ []) :
    (broadcastMessage cfg subs intensity duration kind).1.calls =
      [⟨cfg.openShockToken,
        collectSubscriberShockers (subs.filter (fun sub => sub.isOpen)),
        (jsParseInt intensity).getD 0, (jsParseInt duration).getD 0,
        normalizeKind kind⟩] := by
  have hpos : 0 < (collectSubscriberShockers (subs.filter (fun sub => sub.isOpen))).length :=
    List.length_pos.mpr hne
  have hcfg : ¬ (cfg.openShockToken = "" ∨ cfg.openShockIdsEnv = "") := by
    simp [htok, hids]
  unfold broadcastMessage
  simp only [hk, hi, hd, Bool.not_true, Bool.false_eq_true, if_false]
  simp only [gt_iff_lt, hpos, if_pos]
  unfold sendOpenShockControl
  simp only [if_neg hcfg]
  simp only [gt_iff_lt, hpos, if_pos, Nat.pos_iff_ne_zero.mp hpos, if_neg]
  simp [outboundCalls, Nat.pos_iff_ne_zero.mp hpos]

/-- C1 amended witness: the single-global-call theorem applied to the
two-credential subscriber pair at intensity 50, duration 1000, kind
shock. -/
theorem C1_single_global_forward_call_witness :
    collectSubscriberShockers (twoCredSubs.filter (fun sub => sub.isOpen)) ≠ [] ∧
    (broadcastMessage cfgSet twoCredSubs (.num 50) (.num 1000) (.str "shock")).1.calls =
      [⟨cfgSet.openShockToken,
        collectSubscriberShockers (twoCredSubs.filter (fun sub => sub.isOpen)),
        (jsParseInt (.num 50)).getD 0, (jsParseInt (.num 1000)).getD 0,
        normalizeKind (.str "shock")⟩] :=
  ⟨by decide,
    C1_single_global_forward_call cfgSet twoCredSubs (.num 50) (.num 1000)
      (.str "shock") rfl rfl rfl (by decide) (by decide) (by decide)⟩

/-- C10: an authorized broadcast with valid parameters whose open
subscribers contribute no device IDs performs no outbound forwarding
call at all (sendOpenShockControl is never invoked), yet succeeds with
status 200 and reports the current (post-prune) subscriber count. -/
theorem C10_empty_union_success_no_forward (keys : List String) (cfg : Config)
    (subs : List Subscriber) (apiKey intensity duration kind : JVal)
    (hak : truthy apiKey = true) (hkm : validateApiKey keys apiKey = true)
    (hti : truthy intensity = true) (htd : truthy duration = true)
    (hk : isValidKind kind = true)
    (hi : validateIntensity intensity = true) (hd : validateTime duration = true)
    (hempty : collectSubscriberShockers (subs.filter (fun sub => sub.isOpen)) = []) :
    (broadcastEndpoint keys cfg subs apiKey intensity duration kind).1 =
      ⟨200, true, some (subs.filter (fun sub => sub.isOpen)).length,
        some (subs.filter (fun sub => sub.isOpen)).length, false, []⟩ := by
  have htk : truthy kind = true := truthy_of_isValidKind kind hk
  unfold broadcastEndpoint executeBroadcast broadcastMessage
  simp [hak, hkm, hti, htd, htk, hk, hi, hd, hempty]

/-- C10 witness: the empty-union theorem applied with key K, one open
subscriber with no device IDs, intensity 50, duration 1000, kind
shock. -/
theorem C10_empty_union_success_no_forward_witness :
    collectSubscriberShockers (openNoShockers.filter (fun sub => sub.isOpen)) = [] ∧
    (broadcastEndpoint ["K"] cfgSet openNoShockers (.str "K") (.num 50) (.num 1000)
        (.str "shock")).1 =
      ⟨200, true, some (openNoShockers.filter (fun sub => sub.isOpen)).length,
        some (openNoShockers.filter (fun sub => sub.isOpen)).length, false, []⟩ :=
  ⟨by decide,
    C10_empty_union_success_no_forward ["K"] cfgSet openNoShockers (.str "K")
      (.num 50) (.num 1000) (.str "shock") rfl (by decide) rfl rfl rfl rfl rfl
      (by decide)⟩

end ShockerServer
